import Mathlib

/-!
Verification development for the Polymarket client/normalization layer
(`src/services/polymarket_client.py` and `src/models/market.py`).

The Python code is shallowly embedded: upstream JSON payloads become the
`JsonValue` inductive, floats become `ℚ` (all numeric logic in the source is
comparison/division by constants, which `ℚ` mirrors exactly), Python
exceptions become `Except` error channels, and the aiohttp/httpx session
lifecycle becomes explicit state passing on `ClientState`.

Modelling notes (deliberate, claim-irrelevant restrictions):
* `float(str)` is modelled for finite decimal literals with optional sign,
  fractional part and exponent; `inf`/`nan` literals, `_` digit separators
  and literals whose exponent overflows a double are outside the payload
  shapes this client meets and are unmodelled;
* the JSON decoder used by `json.loads` handles null/bool/number/string/
  array/object but not string escapes or exponent notation;
* `datetime.fromisoformat` is modelled on `YYYY-MM-DD[THH:MM:SS[±HH:MM]]`
  strings via proleptic-Gregorian epoch conversion;
* `datetime.fromtimestamp` distinguishes three outcomes, as CPython on a
  64-bit glibc platform does: a datetime within year 1 .. 9999 (taken at
  UTC), a `ValueError` for magnitudes beyond that but within the C
  `localtime` range (`tm_year` is a C int), and an uncaught
  `OSError`/`OverflowError` beyond the `localtime` range.
-/

/-- A JSON value as produced by the upstream APIs (Python's decoded form). -/
inductive JsonValue where
  | jnull
  | jbool (b : Bool)
  | jnum (q : ℚ)
  | jstr (s : String)
  | jarr (elems : List JsonValue)
  | jobj (fields : List (String × JsonValue))

/-- A Python dict payload: ordered association list with string keys. -/
abbrev Obj := List (String × JsonValue)

/-- `d.get(k)`: first binding of `k` in the payload, if any. -/
def lookupField (d : Obj) (k : String) : Option JsonValue :=
  match d with
  | [] => none
  | (k', v) :: rest => if k' = k then some v else lookupField rest k

/-- Python truthiness of a JSON value (`bool(x)`). -/
def truthy : JsonValue → Bool
  | .jnull => false
  | .jbool b => b
  | .jnum q => decide (q ≠ 0)
  | .jstr s => decide (s ≠ "")
  | .jarr xs => !xs.isEmpty
  | .jobj fs => !fs.isEmpty

/-- Python `a or b`. -/
def pyOr (a b : JsonValue) : JsonValue :=
  if truthy a then a else b

/-- Python `str(x)` on a decoded JSON value.  Container reprs are
abbreviated (no claim inspects them). -/
def pyStr : JsonValue → String
  | .jnull => "None"
  | .jbool b => if b then "True" else "False"
  | .jnum q => if q.den = 1 then toString q.num else toString q
  | .jstr s => s
  | .jarr _ => "[...]"
  | .jobj _ => "\x7b...\x7d"

/-- Python `s.upper()` (character-wise, which agrees with Python on the
ASCII tokens the client handles). -/
def pyUpper (s : String) : String :=
  String.mk (s.toList.map Char.toUpper)

/-- Python `s.lower()`. -/
def pyLower (s : String) : String :=
  String.mk (s.toList.map Char.toLower)

/-- Python whitespace for `str.strip()`. -/
def isPySpace (c : Char) : Bool :=
  c == ' ' || c == '\t' || c == '\n' || c == '\r' || c == '\x0b' || c == '\x0c'

/-- Strip leading and trailing whitespace from a character list. -/
def trimChars (cs : List Char) : List Char :=
  ((cs.dropWhile isPySpace).reverse.dropWhile isPySpace).reverse

/-- Replace every occurrence of `olds` (non-empty in all source uses) by
`news`; the fuel is the input length, enough since each step consumes at
least one character. -/
def replaceListFuel (fuel : Nat) (olds news cs : List Char) : List Char :=
  match fuel with
  | 0 => cs
  | f + 1 =>
    match cs with
    | [] => []
    | c :: rest =>
      if olds.isPrefixOf (c :: rest) && !olds.isEmpty then
        news ++ replaceListFuel f olds news ((c :: rest).drop olds.length)
      else c :: replaceListFuel f olds news rest

/-- Python `s.replace(old, new)`. -/
def pyReplace (s old new : String) : String :=
  String.mk (replaceListFuel s.toList.length old.toList new.toList s.toList)

/-- Decimal digits to a natural number. -/
def digitsToNat (cs : List Char) : Nat :=
  cs.foldl (fun a c => a * 10 + (c.toNat - 48)) 0

/-- Rational addition computed through `mkRat`: the standard `Rat.add` is
irreducible, which would block kernel evaluation of the embedding on
concrete payloads; `qAdd_eq` below identifies this with `+`. -/
def qAdd (a b : ℚ) : ℚ :=
  mkRat (a.num * (b.den : ℤ) + b.num * (a.den : ℤ)) (a.den * b.den)

/-- Rational division computed through `Rat.divInt`; `qDiv_eq` below
identifies this with `/`. -/
def qDiv (a b : ℚ) : ℚ :=
  Rat.divInt (a.num * (b.den : ℤ)) ((a.den : ℤ) * b.num)

/-- Rational multiplication computed through `mkRat`; `qMul_eq` below
identifies this with `*`. -/
def qMul (a b : ℚ) : ℚ :=
  mkRat (a.num * b.num) (a.den * b.den)

/-- Python `float(s)` on a finite decimal literal: optional sign, integer
and/or fractional digits, optional `e`/`E` exponent; `none` models
`ValueError`. -/
def parseFloatStr (s : String) : Option ℚ :=
  let t := trimChars s.toList
  let (neg, cs1) : Bool × List Char :=
    match t with
    | '-' :: r => (true, r)
    | '+' :: r => (false, r)
    | r => (false, r)
  let signed : ℚ → ℚ := fun q => if neg then -q else q
  let ip := cs1.takeWhile Char.isDigit
  let cs2 := cs1.dropWhile Char.isDigit
  let mantissa? : Option (ℚ × List Char) :=
    match cs2 with
    | '.' :: fr =>
      let fp := fr.takeWhile Char.isDigit
      let cs3 := fr.dropWhile Char.isDigit
      if ip.isEmpty && fp.isEmpty then none
      else some (qAdd (digitsToNat ip : ℚ)
        (qDiv (digitsToNat fp : ℚ) ((10 ^ fp.length : ℕ) : ℚ)), cs3)
    | _ => if ip.isEmpty then none else some ((digitsToNat ip : ℚ), cs2)
  match mantissa? with
  | none => none
  | some (m, rest) =>
    match rest with
    | [] => some (signed m)
    | e :: ec =>
      if e = 'e' ∨ e = 'E' then
        let (eneg, ec1) : Bool × List Char :=
          match ec with
          | '-' :: r => (true, r)
          | '+' :: r => (false, r)
          | r => (false, r)
        let ed := ec1.takeWhile Char.isDigit
        let ec2 := ec1.dropWhile Char.isDigit
        if ed.isEmpty || !ec2.isEmpty then none
        else
          let scale : ℚ := ((10 ^ digitsToNat ed : ℕ) : ℚ)
          some (signed (if eneg then qDiv m scale else qMul m scale))
      else none

/-- Python exceptions that can escape the parsing helpers. -/
inductive PyError where
  | valueError (msg : String)
  | typeError (msg : String)
  | attributeError (msg : String)
  | osError (msg : String)
  | validationError (locs : List String)
deriving DecidableEq

/-- Python `float(x)` on a decoded JSON value. -/
def pyFloat : JsonValue → Except PyError ℚ
  | .jnum q => .ok q
  | .jbool b => .ok (if b then 1 else 0)
  | .jstr s =>
    match parseFloatStr s with
    | some q => .ok q
    | none => .error (.valueError ("could not convert string to float: " ++ s))
  | .jnull => .error (.typeError "float() argument must be a string or a real number, not NoneType")
  | .jarr _ => .error (.typeError "float() argument must be a string or a real number, not list")
  | .jobj _ => .error (.typeError "float() argument must be a string or a real number, not dict")

/-- Skip JSON whitespace. -/
def skipWs (cs : List Char) : List Char :=
  cs.dropWhile (fun c => c == ' ' || c == '\n' || c == '\t' || c == '\r')

/-- Parse the body of a JSON string literal (escapes unmodelled). -/
def jsonStringBody (cs : List Char) (acc : List Char) : Option (String × List Char) :=
  match cs with
  | [] => none
  | '"' :: rest => some (String.mk acc.reverse, rest)
  | '\\' :: _ => none
  | c :: rest => jsonStringBody rest (c :: acc)

/-- Parse a JSON number (integer or with a fractional part). -/
def jsonNumber (cs : List Char) : Option (JsonValue × List Char) :=
  let (neg, cs1) : Bool × List Char :=
    match cs with
    | '-' :: r => (true, r)
    | r => (false, r)
  let signed : ℚ → ℚ := fun q => if neg then -q else q
  let ip := cs1.takeWhile Char.isDigit
  let cs2 := cs1.dropWhile Char.isDigit
  if ip.isEmpty then none
  else
    match cs2 with
    | '.' :: cs3 =>
      let fp := cs3.takeWhile Char.isDigit
      let cs4 := cs3.dropWhile Char.isDigit
      if fp.isEmpty then none
      else some (.jnum (signed (qAdd (digitsToNat ip : ℚ)
        (qDiv (digitsToNat fp : ℚ) ((10 ^ fp.length : ℕ) : ℚ)))), cs4)
    | _ => some (.jnum (signed (digitsToNat ip : ℚ)), cs2)

mutual

/-- Fuel-indexed JSON value parser (the fuel only bounds nesting). -/
def jsonValue (fuel : Nat) (cs : List Char) : Option (JsonValue × List Char) :=
  match fuel with
  | 0 => none
  | f + 1 =>
    match skipWs cs with
    | 'n' :: 'u' :: 'l' :: 'l' :: rest => some (.jnull, rest)
    | 't' :: 'r' :: 'u' :: 'e' :: rest => some (.jbool true, rest)
    | 'f' :: 'a' :: 'l' :: 's' :: 'e' :: rest => some (.jbool false, rest)
    | '"' :: rest =>
      match jsonStringBody rest [] with
      | some (s, rest2) => some (.jstr s, rest2)
      | none => none
    | '[' :: rest =>
      match skipWs rest with
      | ']' :: rest2 => some (.jarr [], rest2)
      | cs2 => jsonArrayItems f cs2
    | '\x7b' :: rest =>
      match skipWs rest with
      | '\x7d' :: rest2 => some (.jobj [], rest2)
      | cs2 =>
        match jsonObjItems f cs2 with
        | some (ps, rest3) => some (.jobj ps, rest3)
        | none => none
    | other => jsonNumber other

/-- Comma-separated JSON array items followed by `]`. -/
def jsonArrayItems (fuel : Nat) (cs : List Char) : Option (JsonValue × List Char) :=
  match fuel with
  | 0 => none
  | f + 1 =>
    match jsonValue f cs with
    | none => none
    | some (v, rest) =>
      match skipWs rest with
      | ',' :: rest2 =>
        match jsonArrayItems f rest2 with
        | some (.jarr vs, rest3) => some (.jarr (v :: vs), rest3)
        | _ => none
      | ']' :: rest2 => some (.jarr [v], rest2)
      | _ => none

/-- Comma-separated JSON object members followed by the closing brace. -/
def jsonObjItems (fuel : Nat) (cs : List Char) : Option (List (String × JsonValue) × List Char) :=
  match fuel with
  | 0 => none
  | f + 1 =>
    match skipWs cs with
    | '"' :: rest =>
      match jsonStringBody rest [] with
      | some (k, rest2) =>
        match skipWs rest2 with
        | ':' :: rest3 =>
          match jsonValue f rest3 with
          | some (v, rest4) =>
            match skipWs rest4 with
            | ',' :: rest5 =>
              match jsonObjItems f rest5 with
              | some (ps, rest6) => some ((k, v) :: ps, rest6)
              | none => none
            | '\x7d' :: rest5 => some ([(k, v)], rest5)
            | _ => none
          | none => none
        | _ => none
      | none => none
    | _ => none

end

/-- Python `json.loads`; `none` models `json.JSONDecodeError`. -/
def jsonLoads (s : String) : Option JsonValue :=
  match jsonValue (2 * s.length + 2) s.toList with
  | some (v, rest) => if skipWs rest = [] then some v else none
  | none => none

/-- Gregorian leap-year test. -/
def isLeap (y : Int) : Bool :=
  (y % 4 == 0 && y % 100 != 0) || (y % 400 == 0)

/-- Length of month `m` in year `y`. -/
def daysInMonth (y : Int) (m : Nat) : Nat :=
  if m = 2 then (if isLeap y then 29 else 28)
  else if m = 4 ∨ m = 6 ∨ m = 9 ∨ m = 11 then 30
  else 31

/-- Days since the Unix epoch of a proleptic-Gregorian civil date. -/
def daysFromCivil (y : Int) (m d : Nat) : Int :=
  let y' := if m ≤ 2 then y - 1 else y
  let era : Int := (if 0 ≤ y' then y' else y' - 399) / 400
  let yoe : Int := y' - era * 400
  let mp : Int := (Int.ofNat m + 9) % 12
  let doy : Int := (153 * mp + 2) / 5 + (d : Int) - 1
  let doe : Int := yoe * 365 + yoe / 4 - yoe / 100 + doy
  era * 146097 + doe - 719468

/-- Read exactly two decimal digits. -/
def twoDigits : List Char → Option (Nat × List Char)
  | a :: b :: rest =>
    if a.isDigit && b.isDigit then some ((a.toNat - 48) * 10 + (b.toNat - 48), rest)
    else none
  | _ => none

/-- Read exactly four decimal digits. -/
def fourDigits : List Char → Option (Nat × List Char)
  | a :: b :: c :: d :: rest =>
    if a.isDigit && b.isDigit && c.isDigit && d.isDigit then
      some (((a.toNat - 48) * 10 + (b.toNat - 48)) * 100 + (c.toNat - 48) * 10 + (d.toNat - 48), rest)
    else none
  | _ => none

/-- Read `HH:MM:SS`, validated. -/
def parseHms (cs : List Char) : Option (Nat × List Char) :=
  match twoDigits cs with
  | some (h, ':' :: cs2) =>
    match twoDigits cs2 with
    | some (mi, ':' :: cs3) =>
      match twoDigits cs3 with
      | some (s, cs4) =>
        if h < 24 ∧ mi < 60 ∧ s < 60 then some (h * 3600 + mi * 60 + s, cs4) else none
      | _ => none
    | _ => none
  | _ => none

/-- Read a `±HH:MM` UTC offset, in seconds. -/
def parseOffset (cs : List Char) : Option (Int × List Char) :=
  match cs with
  | '+' :: rest =>
    match twoDigits rest with
    | some (h, ':' :: rest2) =>
      match twoDigits rest2 with
      | some (mi, rest3) => some ((h * 3600 + mi * 60 : Int), rest3)
      | none => none
    | _ => none
  | '-' :: rest =>
    match twoDigits rest with
    | some (h, ':' :: rest2) =>
      match twoDigits rest2 with
      | some (mi, rest3) => some (-(h * 3600 + mi * 60 : Int), rest3)
      | none => none
    | _ => none
  | _ => none

/-- `datetime.fromisoformat`, as epoch seconds (`none` models `ValueError`).
Naive datetimes are read at UTC; only whole-second precision is modelled. -/
def fromisoformat (s : String) : Option ℚ :=
  match fourDigits s.toList with
  | some (y, '-' :: cs1) =>
    match twoDigits cs1 with
    | some (m, '-' :: cs2) =>
      match twoDigits cs2 with
      | some (d, cs3) =>
        if 1 ≤ m ∧ m ≤ 12 ∧ 1 ≤ d ∧ d ≤ daysInMonth (y : Int) m then
          let base : Int := daysFromCivil (y : Int) m d * 86400
          match cs3 with
          | [] => some (base : ℚ)
          | t :: cs4 =>
            if t = 'T' ∨ t = ' ' then
              match parseHms cs4 with
              | some (secs, []) => some ((base + secs : Int) : ℚ)
              | some (secs, rest) =>
                match parseOffset rest with
                | some (off, []) => some ((base + secs - off : Int) : ℚ)
                | _ => none
              | none => none
            else none
        else none
      | _ => none
    | _ => none
  | _ => none

/-- Outcome of `datetime.fromtimestamp` on CPython (64-bit glibc): a
datetime in the representable range, a `ValueError` (year outside
1 .. 9999 but still convertible by C `localtime`), or an
`OSError`/`OverflowError` when the seconds value is beyond what
`localtime` accepts — the last is NOT in the `except (ValueError,
TypeError)` tuple at line 428 and so escapes `_parse_trade`. -/
inductive TsResult where
  | ok (t : ℚ)
  | valueErr
  | fatal
deriving DecidableEq

/-- `datetime.fromtimestamp` at UTC.  The inner bounds are the `datetime`
range (years 1 .. 9999); the outer bounds approximate the glibc
`localtime` range (`tm_year` is a C int, so years up to about 2147485547,
roughly ±6.7768×10¹⁶ seconds) beyond which CPython raises
`OSError`/`OverflowError` instead of `ValueError`. -/
def fromtimestamp (s : ℚ) : TsResult :=
  if -62135596800 ≤ s ∧ s ≤ 253402300799 then .ok s
  else if -67768040609740800 ≤ s ∧ s ≤ 67768036191676799 then .valueErr
  else .fatal

/-- `TradeSide` enumeration from `src/models/market.py`. -/
inductive TradeSide where
  | BUY
  | SELL
deriving DecidableEq

/-- `Outcome` model (`src/models/market.py`). -/
structure Outcome where
  outcome : String
  price : ℚ
deriving DecidableEq

/-- `Market` model (`src/models/market.py`). -/
structure Market where
  id : String
  condition_id : String
  question : String
  description : String
  outcomes : List String
  outcome_prices : List ℚ
  volume : ℚ
  liquidity : ℚ
  end_date : Option ℚ
  active : Bool
  slug : String
deriving DecidableEq

/-- `Trade` model (`src/models/market.py`). -/
structure Trade where
  id : String
  market_id : String
  asset_id : String
  side : TradeSide
  price : ℚ
  size : ℚ
  outcome : String
  timestamp : ℚ
  maker_address : String
  taker_address : String
deriving DecidableEq

/-- Pydantic construction of `Outcome`: `price` constrained to `[0, 1]`;
a violation yields a `ValidationError` naming the field. -/
def mkOutcome (outcome : String) (price : ℚ) : Except PyError Outcome :=
  let errs := if price < 0 ∨ 1 < price then ["price"] else []
  if errs = [] then .ok ⟨outcome, price⟩ else .error (.validationError errs)

/-- Pydantic construction of `Market`: `volume ≥ 0` and `liquidity ≥ 0`;
violations yield a `ValidationError` naming the offending fields. -/
def mkMarket (id condition_id question description : String)
    (outcomes : List String) (outcome_prices : List ℚ)
    (volume liquidity : ℚ) (end_date : Option ℚ) (active : Bool)
    (slug : String) : Except PyError Market :=
  let errs :=
    (if volume < 0 then ["volume"] else []) ++
    (if liquidity < 0 then ["liquidity"] else [])
  if errs = [] then
    .ok ⟨id, condition_id, question, description, outcomes, outcome_prices,
         volume, liquidity, end_date, active, slug⟩
  else .error (.validationError errs)

/-- Pydantic construction of `Trade`: `price ∈ [0, 1]`, `size ≥ 0`;
violations yield a `ValidationError` naming the offending fields. -/
def mkTrade (id market_id asset_id : String) (side : TradeSide)
    (price size : ℚ) (outcome : String) (timestamp : ℚ)
    (maker_address taker_address : String) : Except PyError Trade :=
  let errs :=
    (if price < 0 ∨ 1 < price then ["price"] else []) ++
    (if size < 0 then ["size"] else [])
  if errs = [] then
    .ok ⟨id, market_id, asset_id, side, price, size, outcome, timestamp,
         maker_address, taker_address⟩
  else .error (.validationError errs)

/-- `Market.yes_price` property: first outcome price if present. -/
def Market.yes_price (m : Market) : Option ℚ :=
  if !m.outcome_prices.isEmpty && decide (0 < m.outcome_prices.length) then
    m.outcome_prices.get? 0
  else none

/-- `Market.no_price` property: second outcome price if present. -/
def Market.no_price (m : Market) : Option ℚ :=
  if !m.outcome_prices.isEmpty && decide (1 < m.outcome_prices.length) then
    m.outcome_prices.get? 1
  else none

/-- `Trade.is_whale_trade` property: `size >= 500.0`. -/
def Trade.is_whale_trade (t : Trade) : Bool :=
  decide (500 ≤ t.size)

/-- `float(data.get(k, 0) or 0)` — the numeric-field coercion used by both
`_parse_market` and `_parse_trade`. -/
def coerceNum (d : Obj) (k : String) : Except PyError ℚ :=
  pyFloat (pyOr ((lookupField d k).getD (.jnum 0)) (.jnum 0))

/-- `str(data.get(k, dft))`. -/
def strFieldD (d : Obj) (k : String) (dft : String) : String :=
  match lookupField d k with
  | none => dft
  | some v => pyStr v

/-- `data.get(k1, data.get(k2, ""))`. -/
def nestedGet (d : Obj) (k1 k2 : String) : JsonValue :=
  match lookupField d k1 with
  | some v => v
  | none => (lookupField d k2).getD (.jstr "")

/-- Pydantic validation of a `str` field supplied via `data.get(k, "")`:
a present non-string value is rejected (pydantic v2 does not coerce). -/
def pyStrField (d : Obj) (k : String) : Except PyError String :=
  match lookupField d k with
  | none => .ok ""
  | some (.jstr s) => .ok s
  | some _ => .error (.validationError [k])

/-- Pydantic lax coercion of a `bool` field. -/
def coerceBool (k : String) : JsonValue → Except PyError Bool
  | .jbool b => .ok b
  | .jnum q =>
    if q = 0 then .ok false
    else if q = 1 then .ok true
    else .error (.validationError [k])
  | .jstr s =>
    let t := pyLower s
    if t = "true" ∨ t = "t" ∨ t = "yes" ∨ t = "y" ∨ t = "on" ∨ t = "1" then .ok true
    else if t = "false" ∨ t = "f" ∨ t = "no" ∨ t = "n" ∨ t = "off" ∨ t = "0" then .ok false
    else .error (.validationError [k])
  | _ => .error (.validationError [k])

/-- Pydantic validation of a `list[str]` field. -/
def coerceStrList (j : JsonValue) : Except PyError (List String) :=
  match j with
  | .jarr xs =>
    xs.mapM fun x =>
      match x with
      | .jstr s => Except.ok s
      | _ => Except.error (PyError.validationError ["outcomes"])
  | _ => .error (.validationError ["outcomes"])

/-- `json.loads` applied when the field arrived as a text string
(`_parse_market`, outcome prices). -/
def decodeIfString (pv : JsonValue) : Except PyError JsonValue :=
  match pv with
  | .jstr s =>
    match jsonLoads s with
    | some j => .ok j
    | none => .error (.valueError ("Expecting value: " ++ s))
  | _ => .ok pv

/-- `[float(p) for p in prices]`: iterate a decoded JSON value the way
Python does (lists by element, strings by character, dicts by key). -/
def iterFloats (j : JsonValue) : Except PyError (List ℚ) :=
  match j with
  | .jarr xs => xs.mapM pyFloat
  | .jstr s => s.toList.mapM (fun c => pyFloat (.jstr (String.singleton c)))
  | .jobj fs => fs.mapM (fun kv => pyFloat (.jstr kv.1))
  | _ => .error (.typeError "argument of type is not iterable")

/-- `_parse_market` lines 363-375: outcome prices, either from a (possibly
JSON-string-encoded) `outcomePrices` array or from embedded `price` entries
of an `outcomes` list of objects. -/
def parseOutcomePrices (d : Obj) : Except PyError (List ℚ) :=
  match lookupField d "outcomePrices" with
  | some pv =>
    match decodeIfString pv with
    | .error e => .error e
    | .ok decoded => iterFloats decoded
  | none =>
    match lookupField d "outcomes" with
    | some (.jarr os) =>
      os.foldlM
        (fun acc o =>
          match o with
          | .jobj fs =>
            match lookupField fs "price" with
            | some pv =>
              match pyFloat pv with
              | .ok q => .ok (acc ++ [q])
              | .error e => .error e
            | none => .ok acc
          | _ => .ok acc)
        []
    | _ => .ok []

/-- `_parse_market` lines 377-386: outcome labels, with the `["Yes","No"]`
default; JSON-string-encoded lists are decoded (a decode failure raises and
fails the element); native lists are used when their first element is a
string, with pydantic then validating every element. -/
def parseOutcomeLabels (d : Obj) : Except PyError (List String) :=
  match lookupField d "outcomes" with
  | none => .ok ["Yes", "No"]
  | some (.jstr s) =>
    match jsonLoads s with
    | some j => coerceStrList j
    | none => .error (.valueError ("Expecting value: " ++ s))
  | some (.jarr xs) =>
    match xs with
    | (.jstr _) :: _ => coerceStrList (.jarr xs)
    | _ => .ok ["Yes", "No"]
  | some _ => .ok ["Yes", "No"]

/-- `_parse_market` lines 388-396: resolution date; a trailing `Z` becomes
`+00:00`; every parse failure (including non-string values, whose
`.replace` raises `AttributeError`) is swallowed, leaving `None`. -/
def parseEndDate (d : Obj) : Option ℚ :=
  match lookupField d "endDate" with
  | some v =>
    if truthy v then
      match v with
      | .jstr s => fromisoformat (pyReplace s "Z" "+00:00")
      | _ => none
    else none
  | none => none

/-- `_parse_market` (lines 355-410): normalize one raw market payload. -/
def parseMarket (d : Obj) : Except PyError Market := do
  let outcome_prices ← parseOutcomePrices d
  let outcomes ← parseOutcomeLabels d
  let end_date := parseEndDate d
  let volume ← coerceNum d "volume"
  let liquidity ← coerceNum d "liquidity"
  let question ← pyStrField d "question"
  let description ← pyStrField d "description"
  let active ←
    match lookupField d "active" with
    | none => Except.ok true
    | some v => coerceBool "active" v
  let slug ← pyStrField d "slug"
  mkMarket (strFieldD d "id" "") (pyStr (nestedGet d "conditionId" "condition_id"))
    question description outcomes outcome_prices volume liquidity end_date active slug

/-- The message of the `OSError`/`OverflowError` CPython raises for a
timestamp beyond the `localtime` range. -/
def osErrorMsg : String := "timestamp out of range for platform localtime"

/-- `_parse_trade` lines 416-429: the trade timestamp.  Numeric magnitudes
above `1e12` are treated as milliseconds; booleans are `int` instances in
Python; anything else goes through `str` and `fromisoformat`.  The
`except (ValueError, TypeError)` clause catches `fromtimestamp`'s
`ValueError` and `fromisoformat`'s `ValueError`, substituting the current
processing time `now`; an `OSError`/`OverflowError` from `fromtimestamp`
is not caught and fails the element. -/
def parseTimestampField (v? : Option JsonValue) (now : ℚ) : Except PyError ℚ :=
  match v? with
  | none => .ok now
  | some v =>
    if truthy v then
      match v with
      | .jnum q =>
        let ts := if (1000000000000 : ℚ) < q then qDiv q 1000 else q
        match fromtimestamp ts with
        | .ok t => .ok t
        | .valueErr => .ok now
        | .fatal => .error (.osError osErrorMsg)
      | .jbool _ =>
        match fromtimestamp 1 with
        | .ok t => .ok t
        | .valueErr => .ok now
        | .fatal => .error (.osError osErrorMsg)
      | other =>
        match fromisoformat (pyReplace (pyStr other) "Z" "+00:00") with
        | some t => .ok t
        | none => .ok now
    else .ok now

/-- `_parse_trade` (lines 412-446): normalize one raw trade payload. -/
def parseTrade (d : Obj) (now : ℚ) : Except PyError Trade :=
  match parseTimestampField (lookupField d "timestamp") now with
  | .error e => .error e
  | .ok timestamp =>
    let side_str := pyUpper (pyStr ((lookupField d "side").getD (.jstr "BUY")))
    let side := if side_str = "BUY" then TradeSide.BUY else TradeSide.SELL
    match coerceNum d "price" with
    | .error e => .error e
    | .ok price =>
      match coerceNum d "size" with
      | .error e => .error e
      | .ok size =>
        mkTrade (strFieldD d "id" "") (pyStr (nestedGet d "market" "market_id"))
          (pyStr (nestedGet d "asset_id" "assetId")) side price size
          (strFieldD d "outcome" "") timestamp
          (pyStr (nestedGet d "maker_address" "makerAddress"))
          (pyStr (nestedGet d "taker_address" "takerAddress"))

/-- `_parse_market` applied to one element of a response array; a non-dict
element raises (`item.get` is missing), which the batch loop catches. -/
def parseMarketJson (j : JsonValue) : Except PyError Market :=
  match j with
  | .jobj fs => parseMarket fs
  | _ => .error (.attributeError "object has no attribute get")

/-- `_parse_trade` applied to one element of a response array. -/
def parseTradeJson (j : JsonValue) (now : ℚ) : Except PyError Trade :=
  match j with
  | .jobj fs => parseTrade fs now
  | _ => .error (.attributeError "object has no attribute get")

/-- The `get_markets` batch loop (lines 223-233), one element at a time:
a dict element is parsed, appended on success and skipped on failure (the
handler's log statement `item.get('id', 'unknown')` works on a dict).  For
a non-dict element `_parse_market` raises, the handler catches that — but
its own `item.get` then raises `AttributeError`, aborting the whole
batch. -/
def marketLoop (items : List JsonValue) (acc : List Market) : Except PyError (List Market) :=
  match items with
  | [] => .ok acc
  | item :: rest =>
    match item with
    | .jobj fs =>
      match parseMarket fs with
      | .ok m => marketLoop rest (acc ++ [m])
      | .error _ => marketLoop rest acc
    | _ => .error (.attributeError "object has no attribute get")

/-- The `get_markets` batch loop started on the empty accumulator. -/
def normalizeMarketBatch (items : List JsonValue) : Except PyError (List Market) :=
  marketLoop items []

/-- Client-level exceptions: `PolymarketClientError` (the repo's typed
error), httpx's `RuntimeError` raised when a request is issued on a closed
transport, and parsing exceptions escaping `_parse_market`. -/
inductive PyExc where
  | polymarketClientError (msg : String)
  | runtimeError (msg : String)
  | fromParse (e : PyError)
deriving DecidableEq

/-- The message of the guard at line 181 / 271 / 321. -/
def notInitMsg : String := "Client not initialized. Use 'async with'."

/-- httpx's message when a request is sent on a closed client. -/
def closedMsg : String := "Cannot send a request, as the client has been closed."

/-- The underlying `httpx.AsyncClient`: all the embedding needs is whether
`aclose()` has run. -/
structure HttpClient where
  closed : Bool
deriving DecidableEq

/-- `PolymarketClient`'s mutable state: the `self._client` field, `None`
until `__aenter__` runs. -/
structure ClientState where
  http_client : Option HttpClient
deriving DecidableEq

/-- `__init__`: `self._client = None`. -/
def clientInit : ClientState := ⟨none⟩

/-- `__aenter__`: allocate a fresh transport. -/
def aenter (_ : ClientState) : ClientState := ⟨some ⟨false⟩⟩

/-- `__aexit__` (lines 153-161): close the transport if present.  Note the
source never resets `self._client` to `None`. -/
def aexit (s : ClientState) : ClientState :=
  match s.http_client with
  | some c => ⟨some { c with closed := true }⟩
  | none => ⟨none⟩

/-- One upstream interaction as seen by a single `GET`. -/
inductive UpstreamResponse where
  | ok (body : JsonValue)
  | httpStatus (code : Nat) (text : String)
  | transportFail (msg : String)

/-- `_get` (lines 163-192): the not-initialized guard, the request itself
(which raises httpx's `RuntimeError` — caught by neither handler — when the
transport is closed), and the wrapping of HTTP-status and transport errors
into `PolymarketClientError`. -/
def clientGet (s : ClientState) (resp : UpstreamResponse) : Except PyExc JsonValue :=
  match s.http_client with
  | none => .error (.polymarketClientError notInitMsg)
  | some c =>
    if c.closed then .error (.runtimeError closedMsg)
    else
      match resp with
      | .ok body => .ok body
      | .httpStatus code _ => .error (.polymarketClientError ("API error: " ++ toString code))
      | .transportFail msg => .error (.polymarketClientError ("Request failed: " ++ msg))

/-- Python iteration of a response body (`for item in data`): lists by
element, dicts by key, strings by character; other values raise
`TypeError`. -/
def iterElems : JsonValue → Option (List JsonValue)
  | .jarr xs => some xs
  | .jobj fs => some (fs.map (fun kv => .jstr kv.1))
  | .jstr s => some (s.toList.map (fun c => .jstr (String.singleton c)))
  | _ => none

/-- `get_markets` (lines 194-233): fetch, then the per-element loop that
skips normalization failures. -/
def get_markets (s : ClientState) (resp : UpstreamResponse) : Except PyExc (List Market) :=
  match clientGet s resp with
  | .error e => .error e
  | .ok body =>
    match iterElems body with
    | some items =>
      match normalizeMarketBatch items with
      | .ok ms => .ok ms
      | .error e => .error (.fromParse e)
    | none => .error (.fromParse (.typeError "object is not iterable"))

/-- `get_market` (lines 235-252): any `PolymarketClientError` from `_get`
becomes `None`; other exceptions (closed-transport `RuntimeError`,
`_parse_market` failures) propagate. -/
def get_market (s : ClientState) (resp : UpstreamResponse) : Except PyExc (Option Market) :=
  match clientGet s resp with
  | .error (.polymarketClientError _) => .ok none
  | .error e => .error e
  | .ok body =>
    match parseMarketJson body with
    | .ok m => .ok (some m)
    | .error e => .error (.fromParse e)

/-- `get_recent_trades` (lines 254-301): its own not-initialized guard,
then a `try` whose handlers turn the HTTP-status case and every other
exception (including the closed-transport `RuntimeError` and transport
errors) into `PolymarketClientError("Data API error: ...")`; on success the
response is sliced to `limit` and parsed element-wise, skipping failures. -/
def get_recent_trades (s : ClientState) (resp : UpstreamResponse) (limit : Nat)
    (now : ℚ) : Except PyExc (List Trade) :=
  match s.http_client with
  | none => .error (.polymarketClientError notInitMsg)
  | some c =>
    if c.closed then .error (.polymarketClientError ("Data API error: " ++ closedMsg))
    else
      match resp with
      | .httpStatus code _ => .error (.polymarketClientError ("Data API error: " ++ toString code))
      | .transportFail msg => .error (.polymarketClientError ("Data API error: " ++ msg))
      | .ok body =>
        match body with
        | .jarr items => .ok ((items.take limit).filterMap (fun j => (parseTradeJson j now).toOption))
        | .jstr _ => .ok []
        | _ => .error (.polymarketClientError "Data API error: unhashable slice")

/-- `get_market_trades` (lines 303-353): identical control flow to
`get_recent_trades`, with the market id passed as a filter parameter. -/
def get_market_trades (s : ClientState) (market_id : String)
    (resp : UpstreamResponse) (limit : Nat) (now : ℚ) : Except PyExc (List Trade) :=
  let _ := market_id
  match s.http_client with
  | none => .error (.polymarketClientError notInitMsg)
  | some c =>
    if c.closed then .error (.polymarketClientError ("Data API error: " ++ closedMsg))
    else
      match resp with
      | .httpStatus code _ => .error (.polymarketClientError ("Data API error: " ++ toString code))
      | .transportFail msg => .error (.polymarketClientError ("Data API error: " ++ msg))
      | .ok body =>
        match body with
        | .jarr items => .ok ((items.take limit).filterMap (fun j => (parseTradeJson j now).toOption))
        | .jstr _ => .ok []
        | _ => .error (.polymarketClientError "Data API error: unhashable slice")

instance {ε α : Type _} [DecidableEq ε] [DecidableEq α] : DecidableEq (Except ε α)
  | .ok a, .ok b =>
    match decEq a b with
    | isTrue h => isTrue (h ▸ rfl)
    | isFalse h => isFalse (fun he => h (Except.ok.inj he))
  | .ok _, .error _ => isFalse (fun he => Except.noConfusion he)
  | .error _, .ok _ => isFalse (fun he => Except.noConfusion he)
  | .error e, .error e' =>
    match decEq e e' with
    | isTrue h => isTrue (h ▸ rfl)
    | isFalse h => isFalse (fun he => h (Except.error.inj he))

/-- Claim C5 (confirmed): for every price `p` with `0 ≤ p ≤ 1`, constructing
a `Trade` or an `Outcome` with that price succeeds; for `p` outside `[0,1]`
construction fails with a validation error naming the offending field, and
likewise for a negative `size` (Trade), `volume` or `liquidity` (Market). -/
theorem c5_validation_ranges :
    ∀ (o i ma aa oc mk tk : String) (sd : TradeSide) (p sz v liq ts : ℚ)
      (ed : Option ℚ) (ob : List String) (op : List ℚ),
    (0 ≤ p → p ≤ 1 → mkOutcome o p = Except.ok ⟨o, p⟩) ∧
    (0 ≤ p → p ≤ 1 → 0 ≤ sz → (mkTrade i ma aa sd p sz oc ts mk tk).isOk = true) ∧
    ((p < 0 ∨ 1 < p) → mkOutcome o p = Except.error (PyError.validationError ["price"])) ∧
    ((p < 0 ∨ 1 < p) → 0 ≤ sz →
      mkTrade i ma aa sd p sz oc ts mk tk = Except.error (PyError.validationError ["price"])) ∧
    (0 ≤ p → p ≤ 1 → sz < 0 →
      mkTrade i ma aa sd p sz oc ts mk tk = Except.error (PyError.validationError ["size"])) ∧
    (v < 0 → 0 ≤ liq →
      mkMarket i o o o ob op v liq ed true o = Except.error (PyError.validationError ["volume"])) ∧
    (0 ≤ v → liq < 0 →
      mkMarket i o o o ob op v liq ed true o = Except.error (PyError.validationError ["liquidity"])) := by
  intro o i ma aa oc mk tk sd p sz v liq ts ed ob op
  refine ⟨?_, ?_, ?_, ?_, ?_, ?_, ?_⟩
  · intro h1 h2
    have hc : ¬(p < 0 ∨ 1 < p) := by push_neg; exact ⟨h1, h2⟩
    simp [mkOutcome, hc]
  · intro h1 h2 h3
    have hc : ¬(p < 0 ∨ 1 < p) := by push_neg; exact ⟨h1, h2⟩
    have hs : ¬(sz < 0) := not_lt.mpr h3
    simp [mkTrade, hc, hs, Except.isOk, Except.toBool]
  · intro hc
    simp [mkOutcome, hc]
  · intro hc hs
    simp [mkTrade, hc, not_lt.mpr hs]
  · intro h1 h2 hs
    have hc : ¬(p < 0 ∨ 1 < p) := by push_neg; exact ⟨h1, h2⟩
    simp [mkTrade, hc, hs]
  · intro hv hl
    simp [mkMarket, hv, not_lt.mpr hl]
  · intro hv hl
    simp [mkMarket, not_lt.mpr hv, hl]

/-- Witness for C5: concrete instantiations of each clause. -/
theorem c5_witness :
    mkOutcome "Yes" (1/2) = Except.ok ⟨"Yes", 1/2⟩ ∧
    (mkTrade "i" "m" "a" TradeSide.BUY (1/2) 3 "Yes" 0 "" "").isOk = true ∧
    mkOutcome "Yes" 2 = Except.error (PyError.validationError ["price"]) ∧
    mkTrade "i" "m" "a" TradeSide.BUY (-1) 3 "Yes" 0 "" "" = Except.error (PyError.validationError ["price"]) ∧
    mkTrade "i" "m" "a" TradeSide.BUY (1/2) (-3) "Yes" 0 "" "" = Except.error (PyError.validationError ["size"]) ∧
    mkMarket "i" "o" "o" "o" [] [] (-1) 0 none true "o" = Except.error (PyError.validationError ["volume"]) ∧
    mkMarket "i" "o" "o" "o" [] [] 0 (-1) none true "o" = Except.error (PyError.validationError ["liquidity"]) := by
  refine ⟨?_, ?_, ?_, ?_, ?_, ?_, ?_⟩
  · exact (c5_validation_ranges "Yes" "i" "m" "a" "Yes" "" "" TradeSide.BUY (1/2) 3 0 0 0 none [] []).1
      (by norm_num) (by norm_num)
  · exact (c5_validation_ranges "Yes" "i" "m" "a" "Yes" "" "" TradeSide.BUY (1/2) 3 0 0 0 none [] []).2.1
      (by norm_num) (by norm_num) (by norm_num)
  · exact (c5_validation_ranges "Yes" "i" "m" "a" "Yes" "" "" TradeSide.BUY 2 3 0 0 0 none [] []).2.2.1
      (Or.inr (by norm_num))
  · exact (c5_validation_ranges "Yes" "i" "m" "a" "Yes" "" "" TradeSide.BUY (-1) 3 0 0 0 none [] []).2.2.2.1
      (Or.inl (by norm_num)) (by norm_num)
  · exact (c5_validation_ranges "Yes" "i" "m" "a" "Yes" "" "" TradeSide.BUY (1/2) (-3) 0 0 0 none [] []).2.2.2.2.1
      (by norm_num) (by norm_num) (by norm_num)
  · exact (c5_validation_ranges "o" "i" "m" "a" "Yes" "" "" TradeSide.BUY 0 0 (-1) 0 0 none [] []).2.2.2.2.2.1
      (by norm_num) (by norm_num)
  · exact (c5_validation_ranges "o" "i" "m" "a" "Yes" "" "" TradeSide.BUY 0 0 0 (-1) 0 none [] []).2.2.2.2.2.2
      (by norm_num) (by norm_num)

/-- Claim C6 (confirmed): the large-trade classification holds exactly when
`size ≥ 500.0`; the boundary `size = 500.0` classifies as large, and every
`size < 500.0` does not. -/
theorem c6_whale_threshold : ∀ (t : Trade),
    (t.is_whale_trade = true ↔ 500 ≤ t.size) ∧
    (t.size = 500 → t.is_whale_trade = true) ∧
    (t.size < 500 → t.is_whale_trade = false) := by
  intro t
  refine ⟨?_, ?_, ?_⟩
  · simp [Trade.is_whale_trade]
  · intro h; simp [Trade.is_whale_trade, h]
  · intro h; simp [Trade.is_whale_trade]; linarith

/-- Witness for C6: the boundary trade of size 500 is large; one of size
499 is not. -/
theorem c6_witness :
    (⟨"", "", "", TradeSide.BUY, 0, 500, "", 0, "", ""⟩ : Trade).is_whale_trade = true ∧
    (⟨"", "", "", TradeSide.BUY, 0, 499, "", 0, "", ""⟩ : Trade).is_whale_trade = false :=
  ⟨(c6_whale_threshold ⟨"", "", "", TradeSide.BUY, 0, 500, "", 0, "", ""⟩).2.1 rfl,
   (c6_whale_threshold ⟨"", "", "", TradeSide.BUY, 0, 499, "", 0, "", ""⟩).2.2 (by norm_num)⟩

/-- Claim C9 (confirmed): `yes_price` is the outcome price at position 0
when present and `none` otherwise, and `no_price` is the price at position 1
when present and `none` otherwise; both are total read-only projections of
the (immutable) `Market` value. -/
theorem c9_price_accessors : ∀ (m : Market),
    m.yes_price = m.outcome_prices.get? 0 ∧ m.no_price = m.outcome_prices.get? 1 := by
  intro m
  constructor
  · unfold Market.yes_price
    cases h : m.outcome_prices with
    | nil => simp
    | cons a tl => simp
  · unfold Market.no_price
    cases h : m.outcome_prices with
    | nil => simp
    | cons a tl =>
      cases tl with
      | nil => simp [List.get?]
      | cons b tl2 => simp [List.get?]

/-- Claim C10 (confirmed): a numeric field (`volume`, `liquidity`, `price`,
`size`) that is present but falsy — null, empty string, false, or 0 — is
coerced to 0.0 by the `or 0` guard, never reported as a parse failure; in
particular an empty-string value never drops the element. -/
theorem c10_falsy_coercion : ∀ (v : JsonValue) (d : Obj) (now : ℚ),
    (truthy v = false → pyFloat (pyOr v (JsonValue.jnum 0)) = Except.ok 0) ∧
    (lookupField d "volume" = some v → truthy v = false → coerceNum d "volume" = Except.ok 0) ∧
    (parseMarket [("volume", JsonValue.jstr ""), ("liquidity", JsonValue.jbool false)] =
      Except.ok ⟨"", "", "", "", ["Yes", "No"], [], 0, 0, none, true, ""⟩) ∧
    (parseTrade [("price", JsonValue.jstr ""), ("size", JsonValue.jbool false)] now =
      Except.ok ⟨"", "", "", TradeSide.BUY, 0, 0, "", now, "", ""⟩) := by
  intro v d now
  refine ⟨?_, ?_, rfl, rfl⟩
  · intro h
    simp [pyOr, h, pyFloat]
  · intro hl h
    simp [coerceNum, hl, pyOr, h, pyFloat]

/-- Witness for C10: each falsy shape (empty string, false, null, 0)
coerces to 0.0, and the containing elements survive. -/
theorem c10_witness :
    pyFloat (pyOr (JsonValue.jstr "") (JsonValue.jnum 0)) = Except.ok 0 ∧
    pyFloat (pyOr (JsonValue.jbool false) (JsonValue.jnum 0)) = Except.ok 0 ∧
    pyFloat (pyOr JsonValue.jnull (JsonValue.jnum 0)) = Except.ok 0 ∧
    coerceNum [("volume", JsonValue.jstr "")] "volume" = Except.ok 0 :=
  ⟨(c10_falsy_coercion (JsonValue.jstr "") [] 0).1 rfl,
   (c10_falsy_coercion (JsonValue.jbool false) [] 0).1 rfl,
   (c10_falsy_coercion JsonValue.jnull [] 0).1 rfl,
   (c10_falsy_coercion (JsonValue.jstr "") [("volume", JsonValue.jstr "")] 0).2.1 rfl rfl⟩

/-- Claim C2 (code bug): after `__aenter__` then `__aexit__`, the closed
session still holds the (closed) transport in `self._client`, so no fetch
operation fails with the not-initialized `PolymarketClientError`: the
market operations surface httpx's raw `RuntimeError` and the trade
operations wrap it as a generic "Data API error".  The not-initialized
error is produced only when the session was never entered. -/
theorem c2_close_not_reset : ∀ (resp : UpstreamResponse) (limit : Nat) (now : ℚ),
    (get_markets (aexit (aenter clientInit)) resp = Except.error (PyExc.runtimeError closedMsg)) ∧
    (get_market (aexit (aenter clientInit)) resp = Except.error (PyExc.runtimeError closedMsg)) ∧
    (get_recent_trades (aexit (aenter clientInit)) resp limit now =
      Except.error (PyExc.polymarketClientError ("Data API error: " ++ closedMsg))) ∧
    (get_market_trades (aexit (aenter clientInit)) "m1" resp limit now =
      Except.error (PyExc.polymarketClientError ("Data API error: " ++ closedMsg))) ∧
    (get_markets (aexit (aenter clientInit)) resp ≠
      Except.error (PyExc.polymarketClientError notInitMsg)) ∧
    (get_market (aexit (aenter clientInit)) resp ≠
      Except.error (PyExc.polymarketClientError notInitMsg)) ∧
    (get_recent_trades (aexit (aenter clientInit)) resp limit now ≠
      Except.error (PyExc.polymarketClientError notInitMsg)) ∧
    (get_market_trades (aexit (aenter clientInit)) "m1" resp limit now ≠
      Except.error (PyExc.polymarketClientError notInitMsg)) ∧
    (clientGet clientInit resp = Except.error (PyExc.polymarketClientError notInitMsg)) := by
  intro resp limit now
  refine ⟨rfl, rfl, rfl, rfl, ?_, ?_, ?_, ?_, rfl⟩
  · show (Except.error (PyExc.runtimeError closedMsg) : Except PyExc (List Market)) ≠ _
    decide
  · show (Except.error (PyExc.runtimeError closedMsg) : Except PyExc (Option Market)) ≠ _
    decide
  · show (Except.error (PyExc.polymarketClientError ("Data API error: " ++ closedMsg)) : Except PyExc (List Trade)) ≠ _
    decide
  · show (Except.error (PyExc.polymarketClientError ("Data API error: " ++ closedMsg)) : Except PyExc (List Trade)) ≠ _
    decide

/-- C3 counterexample: with a connected session, a 500 upstream status and
a transport failure are both converted to the not-found result `None` by
`get_market`, instead of propagating as a typed upstream error. -/
theorem c3_counterexample :
    get_market (aenter clientInit) (UpstreamResponse.httpStatus 500 "Internal Server Error") =
      Except.ok none ∧
    get_market (aenter clientInit) (UpstreamResponse.transportFail "timeout") = Except.ok none :=
  ⟨rfl, rfl⟩

/-- Claim C3 (corrected): `get_market` returns the normalized Market on
success, and returns `None` whenever the fetch raises the client's typed
error — not only upstream not-found conditions but every HTTP status error
and every transport error are converted to `None` rather than propagated. -/
theorem c3_amended_get_market :
    ∀ (code : Nat) (text msg : String) (body : JsonValue) (m : Market),
    get_market (aenter clientInit) (UpstreamResponse.httpStatus code text) = Except.ok none ∧
    get_market (aenter clientInit) (UpstreamResponse.transportFail msg) = Except.ok none ∧
    (parseMarketJson body = Except.ok m →
      get_market (aenter clientInit) (UpstreamResponse.ok body) = Except.ok (some m)) := by
  intro code text msg body m
  refine ⟨rfl, rfl, ?_⟩
  intro h
  show (match parseMarketJson body with
        | .ok m' => (Except.ok (some m') : Except PyExc (Option Market))
        | .error e => Except.error (.fromParse e)) = Except.ok (some m)
  rw [h]

/-- Witness for C3: a concrete successful single-market fetch. -/
theorem c3_witness :
    get_market (aenter clientInit)
      (UpstreamResponse.ok (JsonValue.jobj [("id", JsonValue.jstr "42"), ("question", JsonValue.jstr "q")])) =
      Except.ok (some ⟨"42", "", "q", "", ["Yes", "No"], [], 0, 0, none, true, ""⟩) :=
  (c3_amended_get_market 500 "x" "y"
    (JsonValue.jobj [("id", JsonValue.jstr "42"), ("question", JsonValue.jstr "q")])
    ⟨"42", "", "q", "", ["Yes", "No"], [], 0, 0, none, true, ""⟩).2.2 (by rfl)

/-- C4 counterexample: a batch of 3 market payloads whose second element
is missing every required field (`id`, `condition_id`, `question`) yields
3 normalized Markets, not 2 — `_parse_market` substitutes defaults for
missing fields, so a missing required field does not drop the element. -/
theorem c4_counterexample :
    (normalizeMarketBatch
      [JsonValue.jobj [("id", JsonValue.jstr "1"), ("question", JsonValue.jstr "a")],
       JsonValue.jobj [("volume", JsonValue.jnum 7)],
       JsonValue.jobj [("id", JsonValue.jstr "3")]]).map List.length = Except.ok 3 ∧
    (parseMarketJson (JsonValue.jobj [("volume", JsonValue.jnum 7)])).isOk = true :=
  ⟨rfl, rfl⟩

/-- A dict element that fails normalization contributes nothing to the
batch loop, from any accumulator. -/
theorem marketLoop_skip (bad : Obj) (hb : (parseMarket bad).isOk = false)
    (post : List JsonValue) :
    ∀ (pre : List JsonValue) (acc : List Market),
    marketLoop (pre ++ JsonValue.jobj bad :: post) acc = marketLoop (pre ++ post) acc := by
  intro pre
  induction pre with
  | nil =>
    intro acc
    cases hpb : parseMarket bad with
    | ok m =>
      rw [hpb] at hb
      exact absurd hb (by simp [Except.isOk, Except.toBool])
    | error e =>
      show (match parseMarket bad with
            | .ok m => marketLoop post (acc ++ [m])
            | .error _ => marketLoop post acc) = marketLoop post acc
      rw [hpb]
  | cons p pre ih =>
    intro acc
    cases p with
    | jobj fs =>
      show (match parseMarket fs with
            | .ok m => marketLoop (pre ++ JsonValue.jobj bad :: post) (acc ++ [m])
            | .error _ => marketLoop (pre ++ JsonValue.jobj bad :: post) acc) =
          (match parseMarket fs with
            | .ok m => marketLoop (pre ++ post) (acc ++ [m])
            | .error _ => marketLoop (pre ++ post) acc)
      cases parseMarket fs with
      | ok m => exact ih (acc ++ [m])
      | error e => exact ih acc
    | jnull => rfl
    | jbool b => rfl
    | jnum q => rfl
    | jstr s => rfl
    | jarr xs => rfl

/-- A non-dict element aborts the batch loop with the handler's
`AttributeError`, whatever dict elements precede it. -/
theorem marketLoop_abort (v : JsonValue) (hv : ∀ fs, v ≠ JsonValue.jobj fs)
    (rest : List JsonValue) :
    ∀ (ds : List Obj) (acc : List Market),
    marketLoop (ds.map JsonValue.jobj ++ v :: rest) acc =
      Except.error (PyError.attributeError "object has no attribute get") := by
  intro ds
  induction ds with
  | nil =>
    intro acc
    cases v with
    | jobj fs => exact absurd rfl (hv fs)
    | jnull => rfl
    | jbool b => rfl
    | jnum q => rfl
    | jstr s => rfl
    | jarr xs => rfl
  | cons d ds ih =>
    intro acc
    show (match parseMarket d with
          | .ok m => marketLoop (ds.map JsonValue.jobj ++ v :: rest) (acc ++ [m])
          | .error _ => marketLoop (ds.map JsonValue.jobj ++ v :: rest) acc) = _
    cases parseMarket d with
    | ok m => exact ih (acc ++ [m])
    | error e => exact ih acc

/-- Claim C4 (corrected): an individual dict payload that fails
normalization or validation is skipped and logged, never aborting the
batch, and the result is exactly the successfully normalized Markets in
the original upstream order; but a payload merely missing fields (required
ones included) normalizes with defaults and is not dropped, so a failing
element must actually fail (e.g. carry a negative numeric field) — and a
non-dict array element does abort the whole batch, because the handler's
own log statement raises. -/
theorem c4_amended_batch_skip : ∀ (pre post : List JsonValue) (bad : Obj)
    (ds : List Obj) (rest : List JsonValue) (v : JsonValue),
    ((parseMarket bad).isOk = false →
      normalizeMarketBatch (pre ++ JsonValue.jobj bad :: post) =
        normalizeMarketBatch (pre ++ post)) ∧
    ((∀ fs, v ≠ JsonValue.jobj fs) →
      normalizeMarketBatch (ds.map JsonValue.jobj ++ v :: rest) =
        Except.error (PyError.attributeError "object has no attribute get")) := by
  intro pre post bad ds rest v
  constructor
  · intro hb
    exact marketLoop_skip bad hb post pre []
  · intro hv
    exact marketLoop_abort v hv rest ds []

/-- Witness for C4: a 3-element dict batch whose middle payload has a
negative `volume` (a pydantic range violation) equals the batch without
it, and a batch containing a non-dict element aborts. -/
theorem c4_witness :
    normalizeMarketBatch
      [JsonValue.jobj [("id", JsonValue.jstr "1")],
       JsonValue.jobj [("volume", JsonValue.jnum (-5))],
       JsonValue.jobj [("id", JsonValue.jstr "3")]] =
      normalizeMarketBatch [JsonValue.jobj [("id", JsonValue.jstr "1")],
        JsonValue.jobj [("id", JsonValue.jstr "3")]] ∧
    normalizeMarketBatch [JsonValue.jobj [("id", JsonValue.jstr "1")], JsonValue.jnull] =
      Except.error (PyError.attributeError "object has no attribute get") :=
  ⟨(c4_amended_batch_skip [JsonValue.jobj [("id", JsonValue.jstr "1")]]
      [JsonValue.jobj [("id", JsonValue.jstr "3")]] [("volume", JsonValue.jnum (-5))]
      [] [] JsonValue.jnull).1 (by rfl),
   (c4_amended_batch_skip [] [] [("volume", JsonValue.jnum 0)]
      [[("id", JsonValue.jstr "1")]] [] JsonValue.jnull).2
      (fun fs h => nomatch h)⟩

/-- C1 counterexample: the token "HOLD" — neither a case-variant of "BUY"
nor of "SELL" — normalizes to side = SELL, not the claimed BUY. -/
theorem c1_counterexample :
    (parseTrade [("side", JsonValue.jstr "HOLD")] 0).map Trade.side = Except.ok TradeSide.SELL ∧
    (Except.ok TradeSide.SELL : Except PyError TradeSide) ≠ Except.ok TradeSide.BUY :=
  ⟨rfl, by decide⟩

/-- Claim C1 (corrected): normalization upper-cases the raw `side` token
and compares it against "BUY" alone: exactly the case-variants of "BUY"
yield BUY, and every other token — case-variants of "SELL" and
unrecognized tokens alike — yields SELL; a payload with no `side` field
defaults to BUY (never an error). -/
theorem c1_amended_side_fallback : ∀ (d : Obj) (now : ℚ) (t : Trade),
    parseTrade d now = Except.ok t →
    (∀ tok, lookupField d "side" = some (JsonValue.jstr tok) →
      t.side = (if pyUpper tok = "BUY" then TradeSide.BUY else TradeSide.SELL)) ∧
    (lookupField d "side" = none → t.side = TradeSide.BUY) := by
  intro d now t h
  simp only [parseTrade] at h
  cases hts : parseTimestampField (lookupField d "timestamp") now with
  | error e => rw [hts] at h; simp at h
  | ok ts =>
    rw [hts] at h
    cases hp : coerceNum d "price" with
    | error e => rw [hp] at h; simp at h
    | ok p =>
      rw [hp] at h
      cases hs : coerceNum d "size" with
      | error e => rw [hs] at h; simp at h
      | ok sz =>
        rw [hs] at h
        simp only [mkTrade] at h
        split at h
        · simp at h
        · split at h
          · simp at h
          · split at h
            · injection h with h
              constructor
              · intro tok htok
                rw [← h]
                show (if pyUpper (pyStr ((lookupField d "side").getD (JsonValue.jstr "BUY"))) = "BUY"
                    then TradeSide.BUY else TradeSide.SELL) = _
                rw [htok]
                rfl
              · intro hnone
                rw [← h]
                show (if pyUpper (pyStr ((lookupField d "side").getD (JsonValue.jstr "BUY"))) = "BUY"
                    then TradeSide.BUY else TradeSide.SELL) = _
                rw [hnone]
                decide
            · next hcond => exact (hcond (by simp)).elim

/-- Witness for C1: a lower-case "sell" token yields side = SELL through
the amended rule. -/
theorem c1_witness :
    (⟨"", "", "", TradeSide.SELL, 0, 0, "", 0, "", ""⟩ : Trade).side =
      (if pyUpper "sell" = "BUY" then TradeSide.BUY else TradeSide.SELL) :=
  (c1_amended_side_fallback [("side", JsonValue.jstr "sell")] 0
    ⟨"", "", "", TradeSide.SELL, 0, 0, "", 0, "", ""⟩ (by rfl)).1 "sell" rfl

/-- The computable rational addition agrees with `+`. -/
theorem qAdd_eq (a b : ℚ) : qAdd a b = a + b :=
  (Rat.add_def' a b).symm

/-- The computable rational division agrees with `/`. -/
theorem qDiv_eq (a b : ℚ) : qDiv a b = a / b :=
  (Rat.div_def' a b).symm

/-- The computable rational multiplication agrees with `*`. -/
theorem qMul_eq (a b : ℚ) : qMul a b = a * b := by
  unfold qMul
  rw [Rat.mkRat_eq_div]
  push_cast
  rw [← div_mul_div_comm, Rat.num_div_den, Rat.num_div_den]

/-- Millisecond re-normalization agrees with single division only while the
divided value itself stays at or below the 1e12 threshold. -/
theorem tsField_div1000 (v now : ℚ) (h1 : (1000000000000 : ℚ) < v)
    (h2 : v ≤ 1000000000000000) :
    parseTimestampField (some (JsonValue.jnum v)) now =
      parseTimestampField (some (JsonValue.jnum (v / 1000))) now := by
  have hv : (0 : ℚ) < v := lt_trans (by norm_num) h1
  have hvne : v ≠ 0 := ne_of_gt hv
  have hdiv : (0 : ℚ) < v / 1000 := by positivity
  have hdivne : v / 1000 ≠ 0 := ne_of_gt hdiv
  have hle : v / 1000 ≤ 1000000000000 := by
    rw [div_le_iff₀ (by norm_num : (0 : ℚ) < 1000)]
    linarith
  simp only [parseTimestampField, truthy, decide_eq_true_eq]
  rw [if_pos hvne, if_pos hdivne, if_pos h1, if_neg (not_lt.mpr hle), qDiv_eq]

/-- For a payload carrying only a timestamp, the normalized trade's
timestamp channel is exactly the timestamp parser's result (everything
else defaults and validates). -/
theorem parseTrade_timestamp_only (v : JsonValue) (now : ℚ) :
    (parseTrade [("timestamp", v)] now).map Trade.timestamp =
      parseTimestampField (some v) now := by
  cases h : parseTimestampField (some v) now with
  | error e =>
    have hp : parseTrade [("timestamp", v)] now = Except.error e := by
      unfold parseTrade
      rw [show lookupField [("timestamp", v)] "timestamp" = some v from rfl, h]
    rw [hp]
    rfl
  | ok ts =>
    have hp : parseTrade [("timestamp", v)] now =
        Except.ok ⟨"", "", "", TradeSide.BUY, 0, 0, "", ts, "", ""⟩ := by
      unfold parseTrade
      rw [show lookupField [("timestamp", v)] "timestamp" = some v from rfl, h]
      rfl
    rw [hp]
    rfl

/-- C7 counterexample: at the processing time 1791849600, the numeric
timestamp 2×10¹⁵ normalizes to the fallback (current) time, while
2×10¹⁵/1000 = 2×10¹² is divided a second time and normalizes to the
instant 2×10⁹ — different points in time, refuting the claim's universal
v / v∕1000 agreement. -/
theorem c7_counterexample :
    (1000000000000 : ℚ) < 2000000000000000 ∧
    (2000000000000000 : ℚ) / 1000 = 2000000000000 ∧
    (parseTrade [("timestamp", JsonValue.jnum 2000000000000000)] 1791849600).map Trade.timestamp =
      Except.ok 1791849600 ∧
    (parseTrade [("timestamp", JsonValue.jnum 2000000000000)] 1791849600).map Trade.timestamp =
      Except.ok 2000000000 ∧
    (Except.ok (1791849600 : ℚ) : Except PyError ℚ) ≠ Except.ok 2000000000 := by
  refine ⟨by norm_num, by norm_num, rfl, rfl, by decide⟩

/-- Claim C7 (corrected): a numeric timestamp v with 1e12 < v ≤ 1e15 is
divided by 1000 and yields the same point in time as normalizing v∕1000
directly; above 1e15 the divided payload is itself divided again, so the
agreement is not guaranteed (and fails at e.g. 2×10¹⁵).  The
current-time fallback covers exactly the caught parse failures: a numeric
value whose seconds land beyond `datetime`'s year-9999 range but within
the C `localtime` range (`ValueError`), or an unparseable string — while
a numeric value beyond the `localtime` range raises an uncaught
`OSError`/`OverflowError` and the element fails instead. -/
theorem c7_amended_timestamp : ∀ (v now : ℚ) (s : String),
    ((1000000000000 : ℚ) < v → v ≤ 1000000000000000 →
      (parseTrade [("timestamp", JsonValue.jnum v)] now).map Trade.timestamp =
        (parseTrade [("timestamp", JsonValue.jnum (v / 1000))] now).map Trade.timestamp) ∧
    (truthy (JsonValue.jnum v) = true →
      fromtimestamp (if (1000000000000 : ℚ) < v then v / 1000 else v) = TsResult.valueErr →
      parseTimestampField (some (JsonValue.jnum v)) now = Except.ok now) ∧
    (truthy (JsonValue.jnum v) = true →
      fromtimestamp (if (1000000000000 : ℚ) < v then v / 1000 else v) = TsResult.fatal →
      parseTimestampField (some (JsonValue.jnum v)) now = Except.error (PyError.osError osErrorMsg) ∧
      (parseTrade [("timestamp", JsonValue.jnum v)] now).isOk = false) ∧
    (truthy (JsonValue.jstr s) = true →
      fromisoformat (pyReplace s "Z" "+00:00") = none →
      parseTimestampField (some (JsonValue.jstr s)) now = Except.ok now) := by
  intro v now s
  refine ⟨?_, ?_, ?_, ?_⟩
  · intro h1 h2
    rw [parseTrade_timestamp_only, parseTrade_timestamp_only]
    exact tsField_div1000 v now h1 h2
  · intro ht hf
    simp only [parseTimestampField]
    rw [if_pos ht]
    show (match fromtimestamp (if (1000000000000 : ℚ) < v then qDiv v 1000 else v) with
          | TsResult.ok t => Except.ok t
          | TsResult.valueErr => Except.ok now
          | TsResult.fatal => Except.error (PyError.osError osErrorMsg)) = Except.ok now
    rw [qDiv_eq, hf]
  · intro ht hf
    have hE : parseTimestampField (some (JsonValue.jnum v)) now =
        Except.error (PyError.osError osErrorMsg) := by
      simp only [parseTimestampField]
      rw [if_pos ht]
      show (match fromtimestamp (if (1000000000000 : ℚ) < v then qDiv v 1000 else v) with
            | TsResult.ok t => Except.ok t
            | TsResult.valueErr => Except.ok now
            | TsResult.fatal => Except.error (PyError.osError osErrorMsg)) =
          Except.error (PyError.osError osErrorMsg)
      rw [qDiv_eq, hf]
    refine ⟨hE, ?_⟩
    have hP : parseTrade [("timestamp", JsonValue.jnum v)] now =
        Except.error (PyError.osError osErrorMsg) := by
      unfold parseTrade
      rw [show lookupField [("timestamp", JsonValue.jnum v)] "timestamp" =
        some (JsonValue.jnum v) from rfl, hE]
    rw [hP]
    rfl
  · intro ht hf
    simp only [parseTimestampField]
    rw [if_pos ht]
    show (match fromisoformat (pyReplace (pyStr (JsonValue.jstr s)) "Z" "+00:00") with
          | some t => Except.ok t
          | none => Except.ok now) = Except.ok now
    simp only [pyStr]
    rw [hf]

/-- Witness for C7: 1.7e12 (ms) and 1.7e9 (s) normalize to the same
instant; 6e14 lands beyond the datetime range after division and falls
back to the processing time; 1e20 lands beyond the C localtime range
after division and fails the element; an unparseable string falls back to
the processing time. -/
theorem c7_witness :
    (parseTrade [("timestamp", JsonValue.jnum 1700000000000)] 100).map Trade.timestamp =
      (parseTrade [("timestamp", JsonValue.jnum (1700000000000 / 1000))] 100).map Trade.timestamp ∧
    parseTimestampField (some (JsonValue.jnum 600000000000000)) 100 = Except.ok 100 ∧
    (parseTimestampField (some (JsonValue.jnum 100000000000000000000)) 100 =
        Except.error (PyError.osError osErrorMsg) ∧
      (parseTrade [("timestamp", JsonValue.jnum 100000000000000000000)] 100).isOk = false) ∧
    parseTimestampField (some (JsonValue.jstr "oops")) 100 = Except.ok 100 :=
  ⟨(c7_amended_timestamp 1700000000000 100 "oops").1 (by norm_num) (by norm_num),
   (c7_amended_timestamp 600000000000000 100 "oops").2.1 (by decide)
     (by
       rw [if_pos (by norm_num : (1000000000000 : ℚ) < 600000000000000),
         show (600000000000000 : ℚ) / 1000 = 600000000000 from by norm_num]
       decide),
   (c7_amended_timestamp 100000000000000000000 100 "oops").2.2.1 (by decide)
     (by
       rw [if_pos (by norm_num : (1000000000000 : ℚ) < 100000000000000000000),
         show (100000000000000000000 : ℚ) / 1000 = 100000000000000000 from by norm_num]
       decide),
   (c7_amended_timestamp 600000000000000 100 "oops").2.2.2 (by decide) (by rfl)⟩

/-- Claim C8 (confirmed): a JSON-string-encoded `outcomePrices` array is
first decoded and then converted element-wise in order (concretely,
the string of "0.65"/"0.35" yields [0.65, 0.35]); with `outcomePrices`
absent, prices are collected in order from embedded `price` entries of an
`outcomes` list of objects; and when neither path applies the result is
empty. -/
theorem c8_outcome_prices : ∀ (d : Obj) (s : String) (xs : List JsonValue) (qs : List ℚ),
    (parseOutcomePrices [("outcomePrices", JsonValue.jstr "[\"0.65\",\"0.35\"]")] =
      Except.ok [13/20, 7/20]) ∧
    (lookupField d "outcomePrices" = some (JsonValue.jstr s) →
      jsonLoads s = some (JsonValue.jarr xs) →
      xs.mapM pyFloat = Except.ok qs →
      parseOutcomePrices d = Except.ok qs) ∧
    (parseOutcomePrices [("outcomes", JsonValue.jarr
        [JsonValue.jobj [("price", JsonValue.jstr "0.3")],
         JsonValue.jobj [("name", JsonValue.jstr "x")],
         JsonValue.jobj [("price", JsonValue.jnum (7/10))]])] =
      Except.ok [3/10, 7/10]) ∧
    (lookupField d "outcomePrices" = none →
      (∀ ys, lookupField d "outcomes" ≠ some (JsonValue.jarr ys)) →
      parseOutcomePrices d = Except.ok []) := by
  intro d s xs qs
  refine ⟨?_, ?_, ?_, ?_⟩
  · have h : parseOutcomePrices [("outcomePrices", JsonValue.jstr "[\"0.65\",\"0.35\"]")] =
        Except.ok [mkRat 13 20, mkRat 7 20] := rfl
    rw [h, Rat.mkRat_eq_div, Rat.mkRat_eq_div]
    norm_num
  · intro h1 h2 h3
    unfold parseOutcomePrices
    rw [h1]
    simp only [decodeIfString, h2]
    show iterFloats (JsonValue.jarr xs) = Except.ok qs
    simpa [iterFloats] using h3
  · have h : parseOutcomePrices [("outcomes", JsonValue.jarr
        [JsonValue.jobj [("price", JsonValue.jstr "0.3")],
         JsonValue.jobj [("name", JsonValue.jstr "x")],
         JsonValue.jobj [("price", JsonValue.jnum (7/10))]])] =
        Except.ok [mkRat 3 10, 7/10] := rfl
    rw [h, Rat.mkRat_eq_div]
    norm_num
  · intro h1 h2
    unfold parseOutcomePrices
    rw [h1]
    cases hout : lookupField d "outcomes" with
    | none => rfl
    | some v =>
      cases v with
      | jarr ys => exact absurd hout (h2 ys)
      | jnull => rfl
      | jbool b => rfl
      | jnum q => rfl
      | jstr s2 => rfl
      | jobj fs => rfl

/-- Witness for C8: a one-element encoded array decodes and converts, and
a payload offering neither path yields the empty price list. -/
theorem c8_witness :
    parseOutcomePrices [("outcomePrices", JsonValue.jstr "[\"1\"]")] = Except.ok [1] ∧
    parseOutcomePrices [("id", JsonValue.jnull)] = Except.ok [] :=
  ⟨(c8_outcome_prices [("outcomePrices", JsonValue.jstr "[\"1\"]")] "[\"1\"]"
      [JsonValue.jstr "1"] [1]).2.1 rfl rfl rfl,
   (c8_outcome_prices [("id", JsonValue.jnull)] "" [] []).2.2.2 rfl
     (fun ys h => by simp [lookupField] at h)⟩
